import Mathlib

/-!
Verification of the version-gated distributed file system
(server `DFSServerImpl` and the FUSE adaptation layer in
`src/client/fuse_client.cpp`).

Modelling conventions:
* File contents are lists of byte values (`List Nat`); the NUL byte is `0`.
* `time_t` / proto `int64` timestamps are modelled as `Int`; offsets and
  sizes are modelled as `Nat` (all claims concern non-negative values).
* The server's local storage and the in-memory version table
  (`file_versions`) are association lists keyed by path strings; an
  absent key in the version table reads as timestamp `0`, exactly as the
  C++ code's `server_mtime = 0` default.
* The wall-clock time `std::time(nullptr)` observed by the server during
  a `Write` is passed in as an explicit parameter `now`; the local
  filesystem is assumed to stamp a written file's on-disk mtime with the
  same clock.
-/

/-- gRPC status codes that appear in the system: `ok`, `notFound`,
`failedPrecondition` are returned by the server handlers; `unavailable`
stands for a transport-level failure (`!status.ok()` without the server
having produced a status). -/
inductive StatusCode
  | ok
  | notFound
  | failedPrecondition
  | unavailable
deriving DecidableEq, Repr

/-- A file in the server's local storage: byte contents plus the on-disk
modification time that `stat` reports. -/
structure File where
  contents : List Nat
  mtime : Int
deriving DecidableEq, Repr

/-- The server-side state: the local files (the backing store the server
reads and writes) and the in-memory `file_versions` map from path to the
last-accepted-write timestamp. -/
structure ServerState where
  files : List (String × File)
  file_versions : List (String × Int)
deriving DecidableEq, Repr

/-- Response shape of the Read RPC. -/
structure ReadResponse where
  data : List Nat
  bytes_read : Nat
deriving DecidableEq, Repr

/-- Response shape of the Write RPC. -/
structure WriteResponse where
  bytes_written : Nat
deriving DecidableEq, Repr

/-- Response shape of the Unlink RPC. -/
structure UnlinkResponse where
  success : Bool
deriving DecidableEq, Repr

/-- Response shape of the GetAttr RPC (`exists_` is the proto field
`exists`, renamed because `exists` is reserved in Lean). -/
structure GetAttrResponse where
  exists_ : Bool
  size : Nat
  mtime : Int
deriving DecidableEq, Repr

/-- Reading the version table: `0` when the path has no record, the
recorded timestamp otherwise (the C++ code's `server_mtime` lookup). -/
def lookupVersion (vs : List (String × Int)) (p : String) : Int :=
  match vs.lookup p with
  | some t => t
  | none => 0

/-- Updating an association list at a key (`file_versions[path] = v` /
overwriting a file on disk). -/
def setKey {α : Type} (l : List (String × α)) (p : String) (v : α) :
    List (String × α) :=
  (p, v) :: l.filter (fun q => q.1 != p)

/-- Deleting a key from an association list (`std::remove` of a file). -/
def delKey {α : Type} (l : List (String × α)) (p : String) :
    List (String × α) :=
  l.filter (fun q => q.1 != p)

theorem lookup_setKey_self {α : Type} (l : List (String × α)) (p : String)
    (v : α) : (setKey l p v).lookup p = some v := by
  simp [setKey, List.lookup]

theorem lookup_delKey_self {α : Type} (l : List (String × α)) (p : String) :
    (delKey l p).lookup p = none := by
  induction l with
  | nil => rfl
  | cons hd tl ih =>
      by_cases h : hd.1 = p
      · have hb : (hd.1 != p) = false := by simp [h]
        simpa [delKey, List.filter_cons, hb] using ih
      · have hb : (hd.1 != p) = true := by simp [h]
        have hpb : (p == hd.1) = false := by
          simp only [beq_eq_false_iff_ne, ne_eq]
          exact fun hh => h hh.symm
        simpa [delKey, List.filter_cons, hb, List.lookup, hpb] using ih

theorem lookupVersion_setKey_self (vs : List (String × Int)) (p : String)
    (v : Int) : lookupVersion (setKey vs p v) p = v := by
  simp [lookupVersion, lookup_setKey_self]

namespace DFSServerImpl

/-- `DFSServerImpl::Read`: if the file cannot be opened, fail with
NotFound (the response keeps its proto-default fields).  Otherwise seek
to `offset`, read up to `size` bytes into a buffer pre-filled with
`size` NUL bytes, and return the whole buffer as `data` together with
`gcount` (the number of bytes actually read) as `bytes_read`. -/
def Read (s : ServerState) (path : String) (offset size : Nat) :
    StatusCode × ReadResponse :=
  match s.files.lookup path with
  | none => (StatusCode.notFound, { data := [], bytes_read := 0 })
  | some f =>
      let actual := (f.contents.drop offset).take size
      (StatusCode.ok,
        { data := actual ++ List.replicate (size - actual.length) 0,
          bytes_read := actual.length })

/-- `DFSServerImpl::Write`: look up the recorded timestamp for `path`
(`0` if absent) under the version mutex; if `client_mtime` is strictly
less, reject with FailedPrecondition and do nothing else.  Otherwise
open the file (creating an empty one if absent), seek to `offset`
(zero-filling any gap past the current end), write `data`, report
`bytes_written = data.size()`, and record the server's own current time
`now` as the new version for `path`. -/
def Write (s : ServerState) (path : String) (offset : Nat)
    (data : List Nat) (client_mtime now : Int) :
    ServerState × StatusCode × WriteResponse :=
  let server_mtime := lookupVersion s.file_versions path
  if client_mtime < server_mtime then
    (s, StatusCode.failedPrecondition, { bytes_written := 0 })
  else
    let old := match s.files.lookup path with
      | some f => f.contents
      | none => []
    let newContents :=
      (old ++ List.replicate (offset - old.length) 0).take offset
        ++ data ++ old.drop (offset + data.length)
    ({ files := setKey s.files path { contents := newContents, mtime := now },
       file_versions := setKey s.file_versions path now },
     StatusCode.ok, { bytes_written := data.length })

/-- `DFSServerImpl::Write` with the outcome of the unchecked local file
I/O made explicit: `diskOk = false` models the stream operations after
the admission gate failing (file could not be opened or the write
failed), in which case the backing store is unchanged.  The source never
inspects the stream state after `file.write`, so the version-table
update, the status and `bytes_written` are computed identically in both
cases. -/
def WriteDisk (s : ServerState) (path : String) (offset : Nat)
    (data : List Nat) (client_mtime now : Int) (diskOk : Bool) :
    ServerState × StatusCode × WriteResponse :=
  let server_mtime := lookupVersion s.file_versions path
  if client_mtime < server_mtime then
    (s, StatusCode.failedPrecondition, { bytes_written := 0 })
  else
    let old := match s.files.lookup path with
      | some f => f.contents
      | none => []
    let newContents :=
      (old ++ List.replicate (offset - old.length) 0).take offset
        ++ data ++ old.drop (offset + data.length)
    ({ files :=
         if diskOk then
           setKey s.files path { contents := newContents, mtime := now }
         else s.files,
       file_versions := setKey s.file_versions path now },
     StatusCode.ok, { bytes_written := data.length })

/-- `DFSServerImpl::Unlink`: `std::remove` the file; success exactly
when the underlying removal succeeds (modelled as: the file exists).
The version table is not touched. -/
def Unlink (s : ServerState) (path : String) :
    ServerState × StatusCode × UnlinkResponse :=
  match s.files.lookup path with
  | some _ =>
      ({ s with files := delKey s.files path },
       StatusCode.ok, { success := true })
  | none => (s, StatusCode.notFound, { success := false })

/-- `DFSServerImpl::GetAttr`: `stat` the file; if present report
`exists=true` with on-disk size and mtime, else `exists=false` and
NotFound. -/
def GetAttr (s : ServerState) (path : String) :
    StatusCode × GetAttrResponse :=
  match s.files.lookup path with
  | some f =>
      (StatusCode.ok,
        { exists_ := true, size := f.contents.length, mtime := f.mtime })
  | none =>
      (StatusCode.notFound, { exists_ := false, size := 0, mtime := 0 })

end DFSServerImpl

/-- POSIX `EIO` (the generic I/O error number the FUSE layer returns
negated). -/
def ioErrorCode : Int := 5

/-- The FUSE layer strips the leading "/" from the path (`path + 1`). -/
def stripSlash (path : String) : String := path.drop 1

/-- The result translation performed by `dfs_write`: a successful status
yields the reported `bytes_written`; ANY non-ok status (server rejection
or transport failure alike) collapses to `-EIO`. -/
def dfs_write_result (status : StatusCode) (resp : WriteResponse) : Int :=
  if status = StatusCode.ok then (resp.bytes_written : Int) else -ioErrorCode

/-- `dfs_write`: issue a Write RPC with the stripped path, the given
offset and payload and the client's current wall-clock time
(`clientNow`); translate the outcome with `dfs_write_result`.
`serverNow` is the wall clock the server observes while handling the
call. -/
def dfs_write (s : ServerState) (path : String) (buf : List Nat)
    (offset : Nat) (clientNow serverNow : Int) : ServerState × Int :=
  let r := DFSServerImpl.Write s (stripSlash path) offset buf clientNow serverNow
  (r.1, dfs_write_result r.2.1 r.2.2)

/-- The empty server state: no files, no version records (the state
after server start). -/
def emptyState : ServerState := { files := [], file_versions := [] }

/-- A server state holding the 5-byte file "hello" at path "a.txt",
with a version record of 100 for it. -/
def helloState : ServerState :=
  { files := [("a.txt", { contents := [104, 101, 108, 108, 111], mtime := 100 })],
    file_versions := [("a.txt", 100)] }
/-- Claim C1: a Write is accepted (status ok) iff the client-declared
mtime is at least the recorded version timestamp for the path (0 when the
path has no record); when it is strictly less, the call fails with
FailedPrecondition and the server state — hence file contents, size and
the mtime reported by GetAttr — is unchanged. -/
theorem write_admission_gate (s : ServerState) (path : String)
    (offset : Nat) (data : List Nat) (client_mtime now : Int) :
    ((DFSServerImpl.Write s path offset data client_mtime now).2.1 = StatusCode.ok
      ↔ lookupVersion s.file_versions path ≤ client_mtime)
    ∧ (client_mtime < lookupVersion s.file_versions path →
        (DFSServerImpl.Write s path offset data client_mtime now).2.1
          = StatusCode.failedPrecondition
        ∧ (DFSServerImpl.Write s path offset data client_mtime now).1 = s
        ∧ DFSServerImpl.GetAttr
            (DFSServerImpl.Write s path offset data client_mtime now).1 path
          = DFSServerImpl.GetAttr s path) := by
  by_cases h : client_mtime < lookupVersion s.file_versions path
  · simp [DFSServerImpl.Write, h, not_le.mpr h]
  · simp [DFSServerImpl.Write, h, not_lt.mp h]

theorem write_admission_gate_witness :
    (50 : Int) < lookupVersion helloState.file_versions "a.txt"
    ∧ ((DFSServerImpl.Write helloState "a.txt" 0 [72] 50 200).2.1
        = StatusCode.failedPrecondition
      ∧ (DFSServerImpl.Write helloState "a.txt" 0 [72] 50 200).1 = helloState
      ∧ DFSServerImpl.GetAttr
          (DFSServerImpl.Write helloState "a.txt" 0 [72] 50 200).1 "a.txt"
        = DFSServerImpl.GetAttr helloState "a.txt") :=
  ⟨by decide,
   (write_admission_gate helloState "a.txt" 0 [72] 50 200).2 (by decide)⟩

/-- Claim C2 is refuted: on a fresh path, a write with client time 5 is
accepted while the server clock reads 1000, so the recorded version
becomes 1000; the next write with client time 10 — strictly larger than
every previously accepted declared time — is rejected. -/
theorem increasing_client_times_counterexample :
    (DFSServerImpl.Write emptyState "a.txt" 0 [104] 5 1000).2.1 = StatusCode.ok
    ∧ (5 : Int) < 10
    ∧ (DFSServerImpl.Write
        (DFSServerImpl.Write emptyState "a.txt" 0 [104] 5 1000).1
        "a.txt" 0 [72] 10 1001).2.1 = StatusCode.failedPrecondition := by
  decide

/-- Claim C2 (amended): after an accepted write handled at server time
now1, a subsequent write to the same path whose declared time is at least
now1 (the server-observed acceptance time, which is what the version
record stores) is never rejected. -/
theorem write_after_accepted_write (s : ServerState) (path : String)
    (offset1 offset2 : Nat) (data1 data2 : List Nat)
    (cm1 now1 cm2 now2 : Int)
    (h1 : (DFSServerImpl.Write s path offset1 data1 cm1 now1).2.1 = StatusCode.ok)
    (h2 : now1 ≤ cm2) :
    (DFSServerImpl.Write
      (DFSServerImpl.Write s path offset1 data1 cm1 now1).1
      path offset2 data2 cm2 now2).2.1 = StatusCode.ok := by
  by_cases h : cm1 < lookupVersion s.file_versions path
  · simp [DFSServerImpl.Write, h] at h1
  · simp [DFSServerImpl.Write, h, lookupVersion_setKey_self, not_lt.mpr h2]

theorem write_after_accepted_write_witness :
    (DFSServerImpl.Write
      (DFSServerImpl.Write emptyState "a.txt" 0 [104] 5 1000).1
      "a.txt" 0 [72] 1000 1001).2.1 = StatusCode.ok :=
  write_after_accepted_write emptyState "a.txt" 0 0 [104] [72] 5 1000 1000 1001
    (by decide) (by decide)

/-- Claim C3: the admission test compares the client-declared time with
the recorded version, but on acceptance the version record for the path
is set to the server's own wall-clock time now — not to the
client-declared time (whenever the two differ, the stored marker differs
from client_mtime). -/
theorem version_record_stores_server_time (s : ServerState) (path : String)
    (offset : Nat) (data : List Nat) (client_mtime now : Int) :
    ((DFSServerImpl.Write s path offset data client_mtime now).2.1 = StatusCode.ok
      ↔ lookupVersion s.file_versions path ≤ client_mtime)
    ∧ (lookupVersion s.file_versions path ≤ client_mtime →
        lookupVersion
          (DFSServerImpl.Write s path offset data client_mtime now).1.file_versions
          path = now)
    ∧ (lookupVersion s.file_versions path ≤ client_mtime → now ≠ client_mtime →
        lookupVersion
          (DFSServerImpl.Write s path offset data client_mtime now).1.file_versions
          path ≠ client_mtime) := by
  by_cases h : client_mtime < lookupVersion s.file_versions path
  · simp [DFSServerImpl.Write, h, not_le.mpr h]
  · simp [DFSServerImpl.Write, h, not_lt.mp h, lookupVersion_setKey_self]

theorem version_record_stores_server_time_witness :
    lookupVersion
      (DFSServerImpl.Write helloState "a.txt" 0 [72] 150 999).1.file_versions
      "a.txt" = 999 :=
  (version_record_stores_server_time helloState "a.txt" 0 [72] 150 999).2.1
    (by decide)

/-- Claim C4: writing data at offset 0 to a fresh path through an
accepted Write reports bytes_written equal to the payload length, and a
subsequent Read of that many bytes at offset 0 succeeds with bytes_read
equal to the payload length and returns exactly the payload. -/
theorem write_read_roundtrip (s : ServerState) (path : String)
    (data : List Nat) (client_mtime now : Int)
    (hfresh : s.files.lookup path = none)
    (hgate : lookupVersion s.file_versions path ≤ client_mtime) :
    (DFSServerImpl.Write s path 0 data client_mtime now).2.1 = StatusCode.ok
    ∧ (DFSServerImpl.Write s path 0 data client_mtime now).2.2.bytes_written
        = data.length
    ∧ (DFSServerImpl.Read
        (DFSServerImpl.Write s path 0 data client_mtime now).1
        path 0 data.length).1 = StatusCode.ok
    ∧ (DFSServerImpl.Read
        (DFSServerImpl.Write s path 0 data client_mtime now).1
        path 0 data.length).2.bytes_read = data.length
    ∧ (DFSServerImpl.Read
        (DFSServerImpl.Write s path 0 data client_mtime now).1
        path 0 data.length).2.data = data := by
  have hnot : ¬ client_mtime < lookupVersion s.file_versions path :=
    not_lt.mpr hgate
  simp [DFSServerImpl.Write, DFSServerImpl.Read, hnot, hfresh,
    lookup_setKey_self]

theorem write_read_roundtrip_witness :
    (DFSServerImpl.Read
      (DFSServerImpl.Write emptyState "b.txt" 0 [1, 2, 3] 7 50).1
      "b.txt" 0 3).2.data = [1, 2, 3] :=
  (write_read_roundtrip emptyState "b.txt" [1, 2, 3] 7 50
    (by decide) (by decide)).2.2.2.2

/-- Claim C5 is refuted on its scenario: Read(offset 3, size 10) of the
5-byte file "hello" does report bytes_read = 2, but the data field of
the response is not the 2-byte string "lo" — it is 10 bytes long ("lo"
followed by 8 NUL bytes of padding). -/
theorem read_scenario_padding_counterexample :
    (DFSServerImpl.Read helloState "a.txt" 3 10).2.bytes_read = 2
    ∧ (DFSServerImpl.Read helloState "a.txt" 3 10).2.data ≠ [108, 111]
    ∧ (DFSServerImpl.Read helloState "a.txt" 3 10).2.data
        = [108, 111, 0, 0, 0, 0, 0, 0, 0, 0] := by
  decide

/-- Claim C5 (amended): Read on an unopenable (absent) file fails with
NotFound; otherwise it succeeds — a short read is not an error — with
bytes_read the number of bytes actually available (at most size), and
the first bytes_read bytes of data are the bytes read from the file; in
the hello scenario, bytes_read = 2 and the first 2 bytes of data are
"lo". -/
theorem read_semantics (s : ServerState) (path : String)
    (offset size : Nat) :
    (s.files.lookup path = none →
      (DFSServerImpl.Read s path offset size).1 = StatusCode.notFound)
    ∧ (∀ f, s.files.lookup path = some f →
        (DFSServerImpl.Read s path offset size).1 = StatusCode.ok
        ∧ (DFSServerImpl.Read s path offset size).2.bytes_read
            = ((f.contents.drop offset).take size).length
        ∧ (DFSServerImpl.Read s path offset size).2.bytes_read ≤ size
        ∧ (DFSServerImpl.Read s path offset size).2.data.take
            ((DFSServerImpl.Read s path offset size).2.bytes_read)
            = (f.contents.drop offset).take size)
    ∧ ((DFSServerImpl.Read helloState "a.txt" 3 10).1 = StatusCode.ok
        ∧ (DFSServerImpl.Read helloState "a.txt" 3 10).2.bytes_read = 2
        ∧ (DFSServerImpl.Read helloState "a.txt" 3 10).2.data.take 2
            = [108, 111]) := by
  refine ⟨fun h => by simp [DFSServerImpl.Read, h], fun f h => ?_, by decide⟩
  simp [DFSServerImpl.Read, h, List.take_left, List.length_take]

theorem read_semantics_witness :
    (DFSServerImpl.Read helloState "nope.txt" 0 4).1 = StatusCode.notFound
    ∧ (DFSServerImpl.Read helloState "a.txt" 3 10).1 = StatusCode.ok :=
  ⟨(read_semantics helloState "nope.txt" 0 4).1 (by decide),
   ((read_semantics helloState "a.txt" 3 10).2.1
      { contents := [104, 101, 108, 108, 111], mtime := 100 } (by decide)).1⟩

/-- Claim C6: Unlink never modifies the version table; a rejected Write
leaves it unchanged as well, and an accepted Write (the only operation
that changes it) advances the path's record to the server time, which is
monotone whenever the server clock has not gone backwards; consequently
a Write issued after an Unlink of the same path is still gated against
the timestamp recorded before the deletion. -/
theorem unlink_preserves_version_table (s : ServerState) (path : String)
    (offset : Nat) (data : List Nat) (client_mtime now : Int) :
    (DFSServerImpl.Unlink s path).1.file_versions = s.file_versions
    ∧ ((DFSServerImpl.Write (DFSServerImpl.Unlink s path).1 path offset data
          client_mtime now).2.1 = StatusCode.ok
        ↔ lookupVersion s.file_versions path ≤ client_mtime)
    ∧ (client_mtime < lookupVersion s.file_versions path →
        (DFSServerImpl.Write s path offset data client_mtime now).1.file_versions
          = s.file_versions)
    ∧ (lookupVersion s.file_versions path ≤ client_mtime →
        lookupVersion s.file_versions path ≤ now →
        lookupVersion
          (DFSServerImpl.Write s path offset data client_mtime now).1.file_versions
          path = now
        ∧ lookupVersion s.file_versions path ≤
            lookupVersion
              (DFSServerImpl.Write s path offset data client_mtime now).1.file_versions
              path) := by
  have hu : (DFSServerImpl.Unlink s path).1.file_versions = s.file_versions := by
    cases h : s.files.lookup path <;> simp [DFSServerImpl.Unlink, h]
  refine ⟨hu, ?_, fun h => by simp [DFSServerImpl.Write, h], fun h h2 => ?_⟩
  · by_cases h : client_mtime < lookupVersion s.file_versions path
    · simp [DFSServerImpl.Write, hu, h, not_le.mpr h]
    · simp [DFSServerImpl.Write, hu, h, not_lt.mp h]
  · have hnot : ¬ client_mtime < lookupVersion s.file_versions path :=
      not_lt.mpr h
    simp [DFSServerImpl.Write, hnot, lookupVersion_setKey_self, h2]

theorem unlink_preserves_version_table_witness :
    (DFSServerImpl.Unlink helloState "a.txt").1.file_versions
      = helloState.file_versions
    ∧ lookupVersion
        (DFSServerImpl.Write helloState "a.txt" 0 [72] 150 999).1.file_versions
        "a.txt" = 999 :=
  ⟨(unlink_preserves_version_table helloState "a.txt" 0 [72] 150 999).1,
   ((unlink_preserves_version_table helloState "a.txt" 0 [72] 150 999).2.2.2
      (by decide) (by decide)).1⟩

/-- Claim C7: Unlink succeeds (success = true) exactly when the
underlying removal succeeds (the file exists in local storage); after a
successful Unlink, GetAttr on the path reports exists = false and fails
with NotFound; Unlink on an absent path fails with NotFound and
success = false. -/
theorem unlink_success_and_getattr (s : ServerState) (path : String) :
    ((DFSServerImpl.Unlink s path).2.2.success = true
      ↔ (s.files.lookup path).isSome = true)
    ∧ ((s.files.lookup path).isSome = true →
        (DFSServerImpl.Unlink s path).2.1 = StatusCode.ok
        ∧ (DFSServerImpl.GetAttr
            (DFSServerImpl.Unlink s path).1 path).2.exists_ = false
        ∧ (DFSServerImpl.GetAttr (DFSServerImpl.Unlink s path).1 path).1
            = StatusCode.notFound)
    ∧ (s.files.lookup path = none →
        (DFSServerImpl.Unlink s path).2.1 = StatusCode.notFound
        ∧ (DFSServerImpl.Unlink s path).2.2.success = false) := by
  cases h : s.files.lookup path with
  | none => simp [DFSServerImpl.Unlink, h]
  | some f =>
      simp [DFSServerImpl.Unlink, DFSServerImpl.GetAttr, h, lookup_delKey_self]

theorem unlink_success_and_getattr_witness :
    ((DFSServerImpl.GetAttr
        (DFSServerImpl.Unlink helloState "a.txt").1 "a.txt").2.exists_ = false)
    ∧ (DFSServerImpl.Unlink helloState "b.txt").2.2.success = false :=
  ⟨((unlink_success_and_getattr helloState "a.txt").2.1 (by decide)).2.1,
   ((unlink_success_and_getattr helloState "b.txt").2.2 (by decide)).2⟩

/-- Claim C8: the FUSE write hook returns the remote bytes_written count
on success, and collapses every non-ok remote outcome — transport
failures and server rejections alike, in particular the stale-writer
FailedPrecondition — to the single generic code -EIO; no distinct
conflict code is surfaced. -/
theorem dfs_write_error_collapse (s : ServerState) (path : String)
    (buf : List Nat) (offset : Nat) (clientNow serverNow : Int) :
    (∀ st resp, st ≠ StatusCode.ok → dfs_write_result st resp = -ioErrorCode)
    ∧ (lookupVersion s.file_versions (stripSlash path) ≤ clientNow →
        (dfs_write s path buf offset clientNow serverNow).2 = (buf.length : Int))
    ∧ (clientNow < lookupVersion s.file_versions (stripSlash path) →
        (dfs_write s path buf offset clientNow serverNow).2 = -ioErrorCode) := by
  refine ⟨fun st resp h => by simp [dfs_write_result, h], fun h => ?_, fun h => ?_⟩
  · simp [dfs_write, DFSServerImpl.Write, not_lt.mpr h, dfs_write_result]
  · simp [dfs_write, DFSServerImpl.Write, h, dfs_write_result]

theorem dfs_write_error_collapse_witness :
    (dfs_write helloState "/a.txt" [72] 0 50 200).2 = -ioErrorCode
    ∧ (dfs_write helloState "/a.txt" [72] 0 150 200).2 = (1 : Int) :=
  ⟨(dfs_write_error_collapse helloState "/a.txt" [72] 0 50 200).2.2 (by decide),
   (dfs_write_error_collapse helloState "/a.txt" [72] 0 150 200).2.1 (by decide)⟩

/-- Claim C9: once the admission gate passes, the server responds OK
with bytes_written = len(data) no matter whether the local file I/O
succeeded (diskOk = true) or failed (diskOk = false, in which case the
backing store is untouched yet the caller still sees success); the
response is computed identically in both cases, and with diskOk = true
the modelled handler coincides with Write. -/
theorem write_ignores_disk_failure (s : ServerState) (path : String)
    (offset : Nat) (data : List Nat) (client_mtime now : Int)
    (h : lookupVersion s.file_versions path ≤ client_mtime) :
    (∀ diskOk : Bool,
      (DFSServerImpl.WriteDisk s path offset data client_mtime now diskOk).2
        = (StatusCode.ok, { bytes_written := data.length }))
    ∧ (DFSServerImpl.WriteDisk s path offset data client_mtime now false).1.files
        = s.files
    ∧ DFSServerImpl.WriteDisk s path offset data client_mtime now true
        = DFSServerImpl.Write s path offset data client_mtime now := by
  have hnot : ¬ client_mtime < lookupVersion s.file_versions path :=
    not_lt.mpr h
  refine ⟨fun diskOk => ?_, ?_, ?_⟩
  · simp [DFSServerImpl.WriteDisk, hnot]
  · simp [DFSServerImpl.WriteDisk, hnot]
  · simp [DFSServerImpl.WriteDisk, DFSServerImpl.Write, hnot]

theorem write_ignores_disk_failure_witness :
    (DFSServerImpl.WriteDisk helloState "a.txt" 0 [72] 150 999 false).2
      = (StatusCode.ok, { bytes_written := 1 })
    ∧ (DFSServerImpl.WriteDisk helloState "a.txt" 0 [72] 150 999 false).1.files
        = helloState.files :=
  ⟨(write_ignores_disk_failure helloState "a.txt" 0 [72] 150 999
      (by decide)).1 false,
   (write_ignores_disk_failure helloState "a.txt" 0 [72] 150 999
      (by decide)).2.1⟩

/-- Claim C10: on a successful Read the data field always has length
exactly size — the bytes past bytes_read are NUL (0) padding left over
from the pre-filled buffer — and only the first bytes_read bytes are the
bytes actually read from the file. -/
theorem read_data_zero_padded (s : ServerState) (path : String)
    (offset size : Nat) (f : File)
    (h : s.files.lookup path = some f) :
    (DFSServerImpl.Read s path offset size).2.data.length = size
    ∧ (DFSServerImpl.Read s path offset size).2.data.drop
        ((DFSServerImpl.Read s path offset size).2.bytes_read)
        = List.replicate
            (size - (DFSServerImpl.Read s path offset size).2.bytes_read) 0
    ∧ (DFSServerImpl.Read s path offset size).2.data.take
        ((DFSServerImpl.Read s path offset size).2.bytes_read)
        = (f.contents.drop offset).take size := by
  have hle : ((f.contents.drop offset).take size).length ≤ size := by
    simp [List.length_take]
  refine ⟨?_, ?_, ?_⟩
  · simp [DFSServerImpl.Read, h, List.length_append, List.length_replicate]
  · simp [DFSServerImpl.Read, h, List.drop_left]
  · simp [DFSServerImpl.Read, h, List.take_left]

theorem read_data_zero_padded_witness :
    (DFSServerImpl.Read helloState "a.txt" 3 10).2.data.length = 10 :=
  (read_data_zero_padded helloState "a.txt" 3 10
    { contents := [104, 101, 108, 108, 111], mtime := 100 } (by decide)).1
